import Mathlib

/-!
Verification of the Position Keeper subsystem of the fullbor-app repository.

The definitions below are a shallow embedding of the Python sources:
  * `src/lambdas/PositionKeeper.py` (the HTTP-triggered lambda variant),
  * `src/position_keeper/positionkeeper.py` (the long-running poller variant),
  * `src/position_keeper/datacache.py` (the reference cache).

Dates are modelled as day numbers (`Nat`), timestamps as `Int`, entity ids as
`Int`, and all other ids and status codes as `Nat`.  Transaction status codes
follow the database encoding used throughout the sources:
`1 = INCOMPLETE`, `2 = NEW / QUEUED`, `3 = PROCESSED`, `4 = UNKNOWN`
(a message-level status of `4` is labelled `AMENDED` by the poller).
-/

namespace Fullbor

/-- A row of the `transactions` table, restricted to the columns the
Position Keeper subsystem reads or writes. -/
structure Transaction where
  transaction_id : Nat
  transaction_status_id : Nat
  transaction_type_id : Nat
  portfolio_entity_id : Int
  contra_entity_id : Int
  instrument_entity_id : Int
  trade_date : Nat
  settle_date : Nat
  updated_user_id : Nat
deriving DecidableEq

/-- A row of the `position_sandbox` table, as inserted by
`generate_sandbox_rows` in `src/lambdas/PositionKeeper.py`. -/
structure SandboxRow where
  position_date : Nat
  position_type_id : Nat
  portfolio_entity_id : Int
  instrument_entity_id : Int
  share_amount : Int
  market_value : Int
  position_keeper_id : Nat
deriving DecidableEq

/-- A cached `transaction_types` row: its name and the
`position_keeping_actions` list parsed from its `properties` JSON. -/
structure TransactionType where
  name : String
  position_keeping_actions : List String
deriving DecidableEq

/-- The sequence values produced by the three cross-joined ten-row constant
tables in the `INSERT ... SELECT` of `generate_sandbox_rows`
(`@row` runs from `0` to `999`, giving exactly 1000 values). -/
def seqValues : List Nat := List.range 1000

/-- The date series `DATE_ADD(min_date, INTERVAL seq DAY) <= max_date`
built from `seqValues` in the insert statement of `generate_sandbox_rows`. -/
def sandboxDates (minDate maxDate : Nat) : List Nat :=
  (seqValues.map (fun s => minDate + s)).filter (fun d => d ≤ maxDate)

/-- The `UNION` of `trade_date` and `settle_date` over all transactions,
from which `generate_sandbox_rows` takes `MIN` and `MAX`. -/
def allTransactionDates (txns : List Transaction) : List Nat :=
  txns.map (fun t => t.trade_date) ++ txns.map (fun t => t.settle_date)

/-- The deduplicated `(entity_id, instrument_entity_id)` pairs taken from the
portfolio side and the contra side of every transaction
(`SELECT DISTINCT ... UNION SELECT DISTINCT ...`). -/
def entityPairs (txns : List Transaction) : List (Int × Int) :=
  (txns.map (fun t => (t.portfolio_entity_id, t.instrument_entity_id)) ++
   txns.map (fun t => (t.contra_entity_id, t.instrument_entity_id))).dedup

/-- One generated `position_sandbox` row: zero share amount and market value,
tagged with the run id `pkId`. -/
def sandboxRow (pkId : Nat) (d : Nat) (pt : Nat) (p : Int × Int) : SandboxRow :=
  { position_date := d, position_type_id := pt, portfolio_entity_id := p.1,
    instrument_entity_id := p.2, share_amount := 0, market_value := 0,
    position_keeper_id := pkId }

/-- The cross join `dates × position_types (1, 2) × entity pairs` of the bulk
insert in `generate_sandbox_rows`. -/
def crossRows (pkId : Nat) (dates : List Nat) (pairs : List (Int × Int)) :
    List SandboxRow :=
  dates.flatMap (fun d =>
    ([1, 2] : List Nat).flatMap (fun pt => pairs.map (sandboxRow pkId d pt)))

/-- The Full Refresh branch of `generate_sandbox_rows`: find the date range
(`MIN`/`MAX` over all trade and settle dates; if there are no transactions the
function returns 0 without touching the sandbox), delete the sandbox rows
already tagged with `pkId`, and insert the cross join of the date series, the
two position types and the distinct entity pairs.  Returns the new sandbox
table together with the number of rows inserted (`cursor.rowcount`). -/
def generateFR (sandbox : List SandboxRow) (txns : List Transaction)
    (pkId : Nat) : List SandboxRow × Nat :=
  match (allTransactionDates txns).min?, (allTransactionDates txns).max? with
  | some minD, some maxD =>
      let newRows := crossRows pkId (sandboxDates minD maxD) (entityPairs txns)
      ((sandbox.filter (fun r => r.position_keeper_id ≠ pkId)) ++ newRows,
        newRows.length)
  | _, _ => (sandbox, 0)

/-- `generate_sandbox_rows` of `src/lambdas/PositionKeeper.py`.  Any mode other
than `"Full Refresh"` raises `NotImplementedError` before the cursor is even
opened, so no sandbox row is deleted or inserted; this is modelled by the
`Except.error` return, which carries no updated state. -/
def generate_sandbox_rows (sandbox : List SandboxRow) (txns : List Transaction)
    (pkId : Nat) (mode : String) : Except String (List SandboxRow × Nat) :=
  if mode ≠ "Full Refresh" then
    Except.error ("Mode " ++ mode ++ " not yet implemented. Only Full Refresh is supported.")
  else
    Except.ok (generateFR sandbox txns pkId)

/-- A decoded SQS message body, restricted to the fields the two message
processors actually use.  `properties` and `timestamp` are only logged and are
omitted. -/
structure QueueMessage where
  operation : String
  transaction_id : Nat
  transaction_type_id : Nat
  transaction_status_id : Nat
  portfolio_entity_id : Option Int
  contra_entity_id : Option Int
  instrument_entity_id : Option Int
  updated_user_id : Nat
deriving DecidableEq

/-- `process_transaction_message` of `src/lambdas/PositionKeeper.py`: look the
transaction type up in the cache (`False` when absent, leaving the store
untouched); if the type has no `position_keeping_actions` return `True`
without any database write; otherwise acknowledge the actions (the position
math is a logging placeholder) and update the transaction row to
`PROCESSED (3)`, writing the `updated_user_id` carried by the message. -/
def process_transaction_message (typeCache : List (Nat × TransactionType))
    (m : QueueMessage) (txns : List Transaction) : Bool × List Transaction :=
  match typeCache.lookup m.transaction_type_id with
  | none => (false, txns)
  | some tt =>
      if tt.position_keeping_actions = [] then (true, txns)
      else
        (true, txns.map (fun t =>
          if t.transaction_id = m.transaction_id then
            { t with transaction_status_id := 3,
                     updated_user_id := m.updated_user_id }
          else t))

/-- Statistics accumulated by `fetch_and_process_sqs_messages`. -/
structure ProcStats where
  total : Nat
  successful : Nat
  failed : Nat
deriving DecidableEq

/-- `fetch_and_process_sqs_messages` of `src/lambdas/PositionKeeper.py`,
draining a finite queue.  A queue entry of `none` stands for a body that fails
JSON decoding: it is counted as failed but deleted.  A parsed message is
deleted exactly when `process_transaction_message` returns `True`; otherwise
it stays in the queue for redelivery.  Returns the updated transaction store,
the messages left in the queue, and the statistics. -/
def fetch_and_process_sqs_messages (typeCache : List (Nat × TransactionType)) :
    List Transaction → List (Option QueueMessage) →
      List Transaction × List (Option QueueMessage) × ProcStats
  | txns, [] => (txns, [], { total := 0, successful := 0, failed := 0 })
  | txns, none :: rest =>
      let r := fetch_and_process_sqs_messages typeCache txns rest
      (r.1, r.2.1,
       { total := r.2.2.total + 1, successful := r.2.2.successful,
         failed := r.2.2.failed + 1 })
  | txns, some m :: rest =>
      let p := process_transaction_message typeCache m txns
      let r := fetch_and_process_sqs_messages typeCache p.2 rest
      if p.1 then
        (r.1, r.2.1,
         { total := r.2.2.total + 1, successful := r.2.2.successful + 1,
           failed := r.2.2.failed })
      else
        (r.1, some m :: r.2.1,
         { total := r.2.2.total + 1, successful := r.2.2.successful,
           failed := r.2.2.failed + 1 })

/-- `cleanup_orphaned_queued_transactions` of `src/lambdas/PositionKeeper.py`:
`UPDATE transactions SET transaction_status_id = 4 WHERE
transaction_status_id = 2`.  Returns the updated table and the number of rows
changed. -/
def cleanup_orphaned_queued_transactions (txns : List Transaction) :
    List Transaction × Nat :=
  (txns.map (fun t =>
      if t.transaction_status_id = 2 then { t with transaction_status_id := 4 }
      else t),
   (txns.filter (fun t => t.transaction_status_id = 2)).length)

/-- A row of the `lambda_locks` table for the lock id `"v2 Position Keeper"`
(the only lock id this subsystem uses, so the table is an `Option`). -/
structure LockRow where
  holder : String
  expires_at : Int
deriving DecidableEq

/-- The persistent state the lambda handler touches: the lock row, the
`transactions` table, the `position_sandbox` table, the pending queue bodies,
the `transaction_types` table (loaded into the in-memory cache at start), and
the auto-increment counter of the `position_keepers` table. -/
structure PKState where
  lock : Option LockRow
  transactions : List Transaction
  sandbox : List SandboxRow
  queue : List (Option QueueMessage)
  typeCache : List (Nat × TransactionType)
  nextPositionKeeperId : Nat
deriving DecidableEq

/-- `acquire_lock`: an `INSERT` into `lambda_locks`; a duplicate primary key
(any existing row, expired or not) raises `IntegrityError` and the function
returns `False` without modifying the table. -/
def acquire_lock (st : PKState) (holder : String) (expires_at : Int) :
    Bool × PKState :=
  match st.lock with
  | some _ => (false, st)
  | none => (true, { st with lock := some { holder := holder, expires_at := expires_at } })

/-- `release_lock`: a `DELETE` returning whether a row was removed. -/
def release_lock (st : PKState) : Bool × PKState :=
  (st.lock.isSome, { st with lock := none })

/-- `get_lock_status`: the holder, expiry, and `is_active = expires_at > now`
of the current row, or `none` when the table has no row. -/
def get_lock_status (now : Int) (st : PKState) : Option (String × Int × Bool) :=
  st.lock.map (fun r => (r.holder, r.expires_at, now < r.expires_at))

/-- The JSON bodies returned by `lambda_handler`, by constructor:
`statusRunning`/`statusIdle` for `GET .../status`; `stopped`/`wasNotRunning`
for `POST .../stop`; `conflictRunning` (the 409 naming the holder),
`conflictAcquire` (the 409 after a failed insert, which names no holder),
`startOk` (the 200 with statistics) and `serverError` (the 500 produced by the
outermost `except` clause) for `POST .../start`. -/
inductive CommandResponse where
  | statusRunning (holder : String) (expires_at : Int)
  | statusIdle
  | stopped
  | wasNotRunning
  | conflictRunning (holder : String) (expires_at : Int)
  | conflictAcquire
  | startOk (sandboxRows : Nat) (stats : ProcStats) (cleanupCount : Nat)
  | serverError (msg : String)
deriving DecidableEq

/-- The HTTP status code attached to each response body in `lambda_handler`. -/
def statusCodeOf : CommandResponse → Nat
  | CommandResponse.statusRunning _ _ => 200
  | CommandResponse.statusIdle => 200
  | CommandResponse.stopped => 200
  | CommandResponse.wasNotRunning => 200
  | CommandResponse.conflictRunning _ _ => 409
  | CommandResponse.conflictAcquire => 409
  | CommandResponse.startOk _ _ _ => 200
  | CommandResponse.serverError _ => 500

/-- The `status` command of `lambda_handler`: report `running` with holder and
expiry when the lock row is active, otherwise `idle`. -/
def statusHandler (now : Int) (st : PKState) : CommandResponse :=
  match get_lock_status now st with
  | some (h, e, true) => CommandResponse.statusRunning h e
  | _ => CommandResponse.statusIdle

/-- The `stop` command of `lambda_handler`: release the lock only when the
row is active; an absent or expired row is reported as `was not running` and
is left in place. -/
def stopHandler (now : Int) (st : PKState) : CommandResponse × PKState :=
  match get_lock_status now st with
  | some (_, _, true) => (CommandResponse.stopped, (release_lock st).2)
  | _ => (CommandResponse.wasNotRunning, st)

/-- The body of the `start` command after the lock has been acquired: create
the `position_keepers` record (`lastrowid`), load the caches, generate the
sandbox rows, drain the queue, sweep orphaned QUEUED transactions, and release
the lock in the `finally` clause.  When `generate_sandbox_rows` raises, the
`finally` clause still releases the lock and the outermost `except` turns the
exception into a 500 response. -/
def startRun (now : Int) (holder : String) (mode : String) (st : PKState) :
    CommandResponse × PKState :=
  let expires := now + 5 * 60
  let stL := { st with lock := some { holder := holder, expires_at := expires } }
  let pkId := stL.nextPositionKeeperId
  let stR := { stL with nextPositionKeeperId := pkId + 1 }
  match generate_sandbox_rows stR.sandbox stR.transactions pkId mode with
  | Except.error e =>
      (CommandResponse.serverError ("Internal server error: " ++ e),
       { stR with lock := none })
  | Except.ok sres =>
      let fq := fetch_and_process_sqs_messages stR.typeCache stR.transactions stR.queue
      let cl := cleanup_orphaned_queued_transactions fq.1
      (CommandResponse.startOk sres.2 fq.2.2 cl.2,
       { stR with sandbox := sres.1, transactions := cl.1, queue := fq.2.1,
                  lock := none })

/-- The `start` command of `lambda_handler`: a 409 naming the holder when the
lock row is active; otherwise `acquire_lock` is attempted, whose `INSERT`
fails on the still-present (expired) row, producing the second 409; when the
insert succeeds the run itself is executed. -/
def startHandler (now : Int) (holder : String) (mode : String) (st : PKState) :
    CommandResponse × PKState :=
  match get_lock_status now st with
  | some (h, e, true) => (CommandResponse.conflictRunning h e, st)
  | some (_, _, false) => (CommandResponse.conflictAcquire, st)
  | none => startRun now holder mode st

/-- `process_transaction` of `src/position_keeper/positionkeeper.py`: look the
transaction type up in the cache (a warning and plain `return` when absent);
branch on the transaction status carried by the message: `1 (INCOMPLETE)` is
ignored, `2 (NEW)` and `4 (AMENDED)` update the transaction row to
`PROCESSED (3)` attributed to the headless position-keeper user id, and any
other status is ignored with a warning.  The entity, user and status name
lookups only feed log lines and have no effect on the store. -/
def process_transaction (typeCache : List (Nat × TransactionType))
    (pkUserId : Nat) (m : QueueMessage) (txns : List Transaction) :
    List Transaction :=
  match typeCache.lookup m.transaction_type_id with
  | none => txns
  | some _ =>
      if m.transaction_status_id = 1 then txns
      else if m.transaction_status_id = 2 ∨ m.transaction_status_id = 4 then
        txns.map (fun t =>
          if t.transaction_id = m.transaction_id then
            { t with transaction_status_id := 3, updated_user_id := pkUserId }
          else t)
      else txns

/-- `process_message` of `src/position_keeper/positionkeeper.py`, restricted
to its effect on the transaction store: a body that fails JSON decoding
(`none`) is only logged; `refresh_cache` touches the in-memory cache only;
`create`, `update` and `delete` are routed to `process_transaction`; any other
operation is logged and ignored.  Every exception is caught inside, so the
function always returns normally. -/
def process_message (typeCache : List (Nat × TransactionType)) (pkUserId : Nat)
    (body : Option QueueMessage) (txns : List Transaction) : List Transaction :=
  match body with
  | none => txns
  | some m =>
      if m.operation = "refresh_cache" then txns
      else if m.operation = "create" ∨ m.operation = "update" ∨
              m.operation = "delete" then
        process_transaction typeCache pkUserId m txns
      else txns

/-- One message iteration of `poll_sqs_forever`: `process_message` is called
and then `sqs.delete_message` runs unconditionally, because `process_message`
swallows every error.  The `Bool` records whether the message was deleted from
the queue. -/
def poll_step (typeCache : List (Nat × TransactionType)) (pkUserId : Nat)
    (body : Option QueueMessage) (txns : List Transaction) :
    List Transaction × Bool :=
  (process_message typeCache pkUserId body txns, true)

/-- A row of a cached reference table in `src/position_keeper/datacache.py`,
keyed by its primary-key column. -/
structure CacheRecord where
  key : Nat
  payload : String
deriving DecidableEq

/-- The `SELECT * FROM table WHERE primary_key_column = %s` query issued by
`refresh_record`: the backing-store rows matching the key (at most one, since
the column is the primary key), of which `pd.read_sql` exposes the first. -/
def fetchRecord (dbTable : List CacheRecord) (primary_key : Nat) :
    Option CacheRecord :=
  (dbTable.filter (fun r => r.key = primary_key)).head?

/-- `refresh_record` of `src/position_keeper/datacache.py` on a table already
present in the cache: fetch the single row with the given primary key from
the backing store; when absent (`df_new_record.empty`), drop the key from the
cached frame; when present, drop the old rows for the key and append the
fetched row. -/
def refresh_record (cached : List CacheRecord) (dbTable : List CacheRecord)
    (primary_key : Nat) : List CacheRecord :=
  match fetchRecord dbTable primary_key with
  | none => cached.filter (fun r => r.key ≠ primary_key)
  | some row => (cached.filter (fun r => r.key ≠ primary_key)) ++ [row]

/-- `lookup` of `src/position_keeper/datacache.py` filtered on the primary-key
column: the cached rows whose key equals `primary_key`. -/
def cacheLookup (cached : List CacheRecord) (primary_key : Nat) :
    List CacheRecord :=
  cached.filter (fun r => r.key = primary_key)

/-- A state with no lock row, no data and an empty queue, used to exercise the
`start` command of the lambda. -/
def stIdle : PKState :=
  { lock := none, transactions := [], sandbox := [], queue := [],
    typeCache := [], nextPositionKeeperId := 1 }

/-- A transaction whose trade and settle dates span 1001 days inclusive. -/
def tx1001 : Transaction :=
  { transaction_id := 1, transaction_status_id := 2, transaction_type_id := 1,
    portfolio_entity_id := 1, contra_entity_id := 2, instrument_entity_id := 3,
    trade_date := 0, settle_date := 1000, updated_user_id := 1 }

/-- A reference cache holding only transaction type 1. -/
def typeCacheC3 : List (Nat × TransactionType) :=
  [(1, { name := "Buy", position_keeping_actions := ["increase quantity"] })]

/-- A `create` message naming transaction type 99, which is absent from
`typeCacheC3`. -/
def msgC3 : QueueMessage :=
  { operation := "create", transaction_id := 5, transaction_type_id := 99,
    transaction_status_id := 2, portfolio_entity_id := some 1,
    contra_entity_id := some 2, instrument_entity_id := some 3,
    updated_user_id := 7 }

/-- The stored transaction targeted by `msgC3`. -/
def txC3 : Transaction :=
  { transaction_id := 5, transaction_status_id := 2, transaction_type_id := 99,
    portfolio_entity_id := 1, contra_entity_id := 2, instrument_entity_id := 3,
    trade_date := 10, settle_date := 12, updated_user_id := 3 }

/-- A reference cache holding transaction type 1 with one action. -/
def typeCacheC4 : List (Nat × TransactionType) :=
  [(1, { name := "Buy", position_keeping_actions := ["increase quantity"] })]

/-- An `update` message whose `updated_user_id` is 7. -/
def msgC4 : QueueMessage :=
  { operation := "update", transaction_id := 5, transaction_type_id := 1,
    transaction_status_id := 2, portfolio_entity_id := some 1,
    contra_entity_id := some 2, instrument_entity_id := some 3,
    updated_user_id := 7 }

/-- The stored transaction targeted by `msgC4`, last touched by user 3. -/
def txC4 : Transaction :=
  { transaction_id := 5, transaction_status_id := 2, transaction_type_id := 1,
    portfolio_entity_id := 1, contra_entity_id := 2, instrument_entity_id := 3,
    trade_date := 10, settle_date := 12, updated_user_id := 3 }

/-- A stored transaction in status `QUEUED (2)`. -/
def txQueued : Transaction :=
  { transaction_id := 8, transaction_status_id := 2, transaction_type_id := 1,
    portfolio_entity_id := 1, contra_entity_id := 2, instrument_entity_id := 3,
    trade_date := 10, settle_date := 12, updated_user_id := 3 }

/-- A stored transaction in status `PROCESSED (3)`. -/
def txProcessed : Transaction :=
  { transaction_id := 9, transaction_status_id := 3, transaction_type_id := 1,
    portfolio_entity_id := 1, contra_entity_id := 2, instrument_entity_id := 3,
    trade_date := 10, settle_date := 12, updated_user_id := 3 }

/-- A two-row cached `entities`-style table. -/
def cachedC9 : List CacheRecord :=
  [{ key := 42, payload := "old name" }, { key := 7, payload := "seven" }]

/-- A backing-store table in which only key 42 exists, carrying updated
values. -/
def dbC9 : List CacheRecord := [{ key := 42, payload := "new name" }]

/-- A state whose lock row expired at time 100. -/
def stExpired : PKState :=
  { lock := some { holder := "old holder", expires_at := 100 },
    transactions := [], sandbox := [], queue := [], typeCache := [],
    nextPositionKeeperId := 1 }

theorem countRange (minD maxD : Nat) (h : minD ≤ maxD) (n : Nat) :
    (((List.range n).map (fun s => minD + s)).filter (fun d => d ≤ maxD)).length
      = min n (maxD - minD + 1) := by
  induction n with
  | zero => simp
  | succ k ih =>
      rw [List.range_succ, List.map_append, List.filter_append,
        List.length_append, ih]
      by_cases hc : minD + k ≤ maxD
      · simp only [List.map_cons, List.map_nil, List.filter_cons]
        simp [hc]
        omega
      · simp only [List.map_cons, List.map_nil, List.filter_cons]
        simp [hc]
        omega

theorem length_sandboxDates (minD maxD : Nat) (h : minD ≤ maxD) :
    (sandboxDates minD maxD).length = min 1000 (maxD - minD + 1) := by
  unfold sandboxDates seqValues
  exact countRange minD maxD h 1000

theorem length_crossRows (pkId : Nat) (dates : List Nat)
    (pairs : List (Int × Int)) :
    (crossRows pkId dates pairs).length = dates.length * (2 * pairs.length) := by
  induction dates with
  | nil => simp [crossRows]
  | cons d ds ih =>
      unfold crossRows at ih ⊢
      rw [List.flatMap_cons, List.length_append, ih, List.flatMap_cons,
        List.flatMap_cons, List.flatMap_nil, List.append_nil,
        List.length_append, List.length_map, List.length_map, List.length_cons]
      ring

theorem mem_crossRows_pk (pkId : Nat) (dates : List Nat)
    (pairs : List (Int × Int)) :
    ∀ r ∈ crossRows pkId dates pairs, r.position_keeper_id = pkId := by
  intro r hr
  simp only [crossRows, List.mem_flatMap, List.mem_map] at hr
  obtain ⟨d, _, pt, _, p, _, rfl⟩ := hr
  rfl

theorem generateFR_eq (sandbox : List SandboxRow) (txns : List Transaction)
    (pkId minD maxD : Nat)
    (h1 : (allTransactionDates txns).min? = some minD)
    (h2 : (allTransactionDates txns).max? = some maxD) :
    generateFR sandbox txns pkId =
      ((sandbox.filter (fun r => r.position_keeper_id ≠ pkId)) ++
          crossRows pkId (sandboxDates minD maxD) (entityPairs txns),
        (crossRows pkId (sandboxDates minD maxD) (entityPairs txns)).length) := by
  unfold generateFR
  rw [h1, h2]

theorem generateFR_idem (sandbox : List SandboxRow) (txns : List Transaction)
    (pkId : Nat) :
    generateFR (generateFR sandbox txns pkId).1 txns pkId =
      generateFR sandbox txns pkId := by
  unfold generateFR
  cases h1 : (allTransactionDates txns).min? with
  | none =>
      cases h2 : (allTransactionDates txns).max? <;> simp
  | some minD =>
      cases h2 : (allTransactionDates txns).max? with
      | none => simp
      | some maxD =>
          simp only []
          have hfil : (crossRows pkId (sandboxDates minD maxD)
              (entityPairs txns)).filter
              (fun r => r.position_keeper_id ≠ pkId) = [] := by
            rw [List.filter_eq_nil_iff]
            intro r hr
            simp [mem_crossRows_pk pkId _ _ r hr]
          rw [List.filter_append, hfil, List.append_nil, List.filter_filter]
          simp

theorem getElem?_map_of_get (txns : List Transaction) (i : Nat)
    (t : Transaction) (h : txns[i]? = some t) (f : Transaction → Transaction) :
    (txns.map f)[i]? = some (f t) := by
  rw [List.getElem?_map, h]
  rfl

/-- Claim C2 (code bug): for a transaction whose trade and settle dates span
1001 inclusive days and which contributes 2 distinct entity pairs, the claim
and the docstring of `generate_sandbox_rows` require `1001 × 2 × 2 = 4004`
inserted rows, but the three cross-joined ten-row constant tables of the
insert statement produce only 1000 sequence values, so the code inserts
`1000 × 2 × 2 = 4000` rows and silently drops the last day of the range. -/
theorem C2_sandbox_row_count_truncated :
    tx1001.settle_date - tx1001.trade_date + 1 = 1001 ∧
    (entityPairs [tx1001]).length = 2 ∧
    (generateFR [] [tx1001] 1).2 = 4000 ∧
    4000 ≠ 1001 * 2 * 2 := by
  refine ⟨by decide, by decide, ?_, by decide⟩
  rw [generateFR_eq [] [tx1001] 1 0 1000 (by decide) (by decide)]
  have hp : (entityPairs [tx1001]).length = 2 := by decide
  rw [length_crossRows, hp, length_sandboxDates 0 1000 (by decide)]
  simp

/-- Claim C7 (confirmed): running the Full Refresh sandbox generation twice in
succession for the same run id, with the transaction table unchanged, returns
the same inserted row count and leaves the same sandbox content as running it
once — the second run deletes exactly the rows tagged with the run id and
reinserts them. -/
theorem C7_generate_idempotent (sandbox : List SandboxRow)
    (txns : List Transaction) (pkId : Nat) :
    generate_sandbox_rows sandbox txns pkId "Full Refresh" =
      Except.ok (generateFR sandbox txns pkId) ∧
    generate_sandbox_rows (generateFR sandbox txns pkId).1 txns pkId
        "Full Refresh" =
      Except.ok (generateFR sandbox txns pkId) := by
  constructor
  · unfold generate_sandbox_rows
    simp
  · unfold generate_sandbox_rows
    simp [generateFR_idem]

/-- Claim C8 (confirmed): for any mode other than `Full Refresh` (in
particular `Incremental`), the sandbox generator raises an explicit
not-implemented error before any deletion or insertion: the lambda run leaves
the sandbox table exactly as it was and surfaces the error as a 500, never
silently behaving like Full Refresh. -/
theorem C8_incremental_not_implemented (mode : String)
    (hm : mode ≠ "Full Refresh") :
    (∀ (sandbox : List SandboxRow) (txns : List Transaction) (pkId : Nat),
      generate_sandbox_rows sandbox txns pkId mode =
        Except.error
          ("Mode " ++ mode ++
            " not yet implemented. Only Full Refresh is supported.")) ∧
    (∀ (now : Int) (holder : String) (st : PKState), st.lock = none →
      (startHandler now holder mode st).2.sandbox = st.sandbox ∧
      statusCodeOf (startHandler now holder mode st).1 = 500) := by
  constructor
  · intro sandbox txns pkId
    unfold generate_sandbox_rows
    simp [hm]
  · intro now holder st hlock
    unfold startHandler get_lock_status
    rw [hlock]
    unfold startRun generate_sandbox_rows
    simp [hm, statusCodeOf]

/-- Witness for C8 at mode `Incremental` on the idle state. -/
theorem C8_incremental_witness :
    generate_sandbox_rows [] [] 1 "Incremental" =
      Except.error
        ("Mode " ++ "Incremental" ++
          " not yet implemented. Only Full Refresh is supported.") ∧
    (startHandler 0 "req-1" "Incremental" stIdle).2.sandbox = stIdle.sandbox :=
  ⟨(C8_incremental_not_implemented "Incremental" (by decide)).1 [] [] 1,
   ((C8_incremental_not_implemented "Incremental" (by decide)).2 0 "req-1"
      stIdle rfl).1⟩

/-- Counterexample to claim C1: a plain `POST .../start` parses to mode
`Incremental` (the default), `generate_sandbox_rows` raises
`NotImplementedError`, the `finally` clause releases the lock, and the
outermost `except` returns HTTP 500 — neither 200 nor 409. -/
theorem C1_counterexample :
    statusCodeOf (startHandler 0 "req-1" "Incremental" stIdle).1 = 500 ∧
    500 ≠ 200 ∧ 500 ≠ 409 := by
  decide

/-- Claim C1 (corrected): every invocation of the start command returns
HTTP 200 (`startOk`, a `message` body with `statistics`), HTTP 409 (either
`conflictRunning`, whose body names the current holder, or `conflictAcquire`
after a lost insert race), or HTTP 500 (`serverError`, produced whenever an
exception escapes — in particular always for the default `Incremental`
mode). -/
theorem C1_start_status_codes (now : Int) (holder mode : String)
    (st : PKState) :
    statusCodeOf (startHandler now holder mode st).1 = 200 ∨
    statusCodeOf (startHandler now holder mode st).1 = 409 ∨
    statusCodeOf (startHandler now holder mode st).1 = 500 := by
  unfold startHandler get_lock_status
  cases hl : st.lock with
  | none =>
      unfold startRun
      cases hg : generate_sandbox_rows st.sandbox st.transactions
          st.nextPositionKeeperId mode with
      | error e => simp [hg, statusCodeOf]
      | ok sres => simp [hg, statusCodeOf]
  | some r =>
      by_cases hc : now < r.expires_at <;> simp [hc, statusCodeOf]

/-- Counterexample to claim C10: with a lock row whose expiry (100) is in the
past (now = 200), `status` reports idle and `start` still returns the 409
acquire-conflict — but `stop` does not delete the row either: it reports
`was not running` and leaves the state untouched, so the conflict does not end
with an explicit stop. -/
theorem C10_counterexample :
    statusHandler 200 stExpired = CommandResponse.statusIdle ∧
    (startHandler 200 "req-2" "Full Refresh" stExpired).1 =
      CommandResponse.conflictAcquire ∧
    statusCodeOf (startHandler 200 "req-2" "Full Refresh" stExpired).1 = 409 ∧
    stopHandler 200 stExpired = (CommandResponse.wasNotRunning, stExpired) ∧
    (stopHandler 200 stExpired).2.lock =
      some { holder := "old holder", expires_at := 100 } := by
  decide

/-- Claim C10 (corrected): for every state whose lock row has expired,
`status` reports idle yet `start` returns the 409 acquire conflict with the
state unchanged (the expired row is never released before the insert), and an
explicit `stop` also reports `was not running` and leaves the row in place
(stop only deletes an active lock), so the conflict persists until the row is
removed by some other means. -/
theorem C10_expired_lock_conflict (now : Int) (st : PKState) (r : LockRow)
    (hr : st.lock = some r) (hexp : r.expires_at ≤ now)
    (holder mode : String) :
    statusHandler now st = CommandResponse.statusIdle ∧
    startHandler now holder mode st = (CommandResponse.conflictAcquire, st) ∧
    stopHandler now st = (CommandResponse.wasNotRunning, st) := by
  have hlt : ¬ (now < r.expires_at) := by omega
  unfold statusHandler startHandler stopHandler get_lock_status
  rw [hr]
  simp [hlt]

/-- Witness for C10 on the concrete expired state. -/
theorem C10_expired_lock_witness :
    statusHandler 200 stExpired = CommandResponse.statusIdle ∧
    startHandler 200 "req-3" "Incremental" stExpired =
      (CommandResponse.conflictAcquire, stExpired) ∧
    stopHandler 200 stExpired = (CommandResponse.wasNotRunning, stExpired) :=
  C10_expired_lock_conflict 200 stExpired
    { holder := "old holder", expires_at := 100 } rfl (by decide)
    "req-3" "Incremental"

/-- Claim C3 (code bug): a `create` message naming transaction type 99, which
is absent from the cache, is handled differently by the two variants.  The
long-running poller leaves the store untouched but still deletes the message
(`poll_step` returns `true`): `poll_sqs_forever` calls `sqs.delete_message`
unconditionally after `process_message`, although its own comment says
`delete message after successful processing` and the spec requires the
message be retained for redelivery.  The lambda variant behaves as claimed:
it counts the message as failed and leaves it in the queue. -/
theorem C3_unknown_type_message_deleted_by_poller :
    poll_step typeCacheC3 99 (some msgC3) [txC3] = ([txC3], true) ∧
    fetch_and_process_sqs_messages typeCacheC3 [txC3] [some msgC3] =
      ([txC3], [some msgC3], { total := 1, successful := 0, failed := 1 }) := by
  decide

/-- Counterexample to claim C4: the lambda variant of message processing
(`process_transaction_message` in `src/lambdas/PositionKeeper.py`) marks the
transaction `PROCESSED` but attributes the write to the `updated_user_id`
carried by the message (7 here), not to a dedicated system user — the lambda
never resolves a headless position-keeper account at all. -/
theorem C4_counterexample :
    (process_transaction_message typeCacheC4 msgC4 [txC4]).2 =
      [{ txC4 with transaction_status_id := 3, updated_user_id := 7 }] ∧
    msgC4.updated_user_id = 7 := by
  decide

/-- Claim C4 (corrected): in the long-running poller, every transaction
message with status NEW (2) or AMENDED (4) whose type is in the cache updates
the matching transaction to `PROCESSED (3)` attributed to the headless
position-keeper user id; the lambda variant instead attributes the write to
the updated_user_id of the message. -/
theorem C4_poller_attribution (typeCache : List (Nat × TransactionType))
    (pkUserId : Nat) (m : QueueMessage) (txns : List Transaction)
    (tt : TransactionType)
    (htype : typeCache.lookup m.transaction_type_id = some tt)
    (hst : m.transaction_status_id = 2 ∨ m.transaction_status_id = 4)
    (t : Transaction) (ht : t ∈ txns)
    (hid : t.transaction_id = m.transaction_id) :
    { t with transaction_status_id := 3, updated_user_id := pkUserId } ∈
      process_transaction typeCache pkUserId m txns := by
  have h1 : m.transaction_status_id ≠ 1 := by rcases hst with h | h <;> omega
  unfold process_transaction
  rw [htype]
  simp only [h1, hst, if_true, if_false, ite_true, ite_false, if_pos, if_neg,
    not_false_iff]
  refine List.mem_map.mpr ⟨t, ht, ?_⟩
  rw [if_pos hid]

/-- Witness for C4 on a concrete NEW message processed by the poller as
headless user 99. -/
theorem C4_poller_attribution_witness :
    { txC4 with transaction_status_id := 3, updated_user_id := 99 } ∈
      process_transaction typeCacheC4 99 msgC4 [txC4] :=
  C4_poller_attribution typeCacheC4 99 msgC4 [txC4]
    { name := "Buy", position_keeping_actions := ["increase quantity"] }
    rfl (Or.inl rfl) txC4 (by decide) rfl

/-- Counterexample to claim C5: the orphan sweep — explicitly included in the
scope of the claim — changes a QUEUED (2) transaction to UNKNOWN (4), a status
change that is neither `INCOMPLETE → (no change)` nor
`{NEW, AMENDED} → PROCESSED (3)`. -/
theorem C5_counterexample :
    (cleanup_orphaned_queued_transactions [txQueued]).1 =
      [{ txQueued with transaction_status_id := 4 }] ∧
    txQueued.transaction_status_id = 2 ∧
    ({ txQueued with transaction_status_id := 4 } :
        Transaction).transaction_status_id ≠ 3 := by
  decide

theorem process_transaction_cases (typeCache : List (Nat × TransactionType))
    (pkUserId : Nat) (m : QueueMessage) (txns : List Transaction) :
    process_transaction typeCache pkUserId m txns = txns ∨
    process_transaction typeCache pkUserId m txns =
      txns.map (fun t =>
        if t.transaction_id = m.transaction_id then
          { t with transaction_status_id := 3, updated_user_id := pkUserId }
        else t) := by
  unfold process_transaction
  cases typeCache.lookup m.transaction_type_id with
  | none => exact Or.inl rfl
  | some tt =>
      by_cases h1 : m.transaction_status_id = 1
      · left
        simp [h1]
      · by_cases h24 : m.transaction_status_id = 2 ∨
            m.transaction_status_id = 4
        · right
          simp [h1, h24]
        · left
          simp [h1, h24]

theorem process_transaction_message_snd
    (typeCache : List (Nat × TransactionType)) (m : QueueMessage)
    (txns : List Transaction) :
    (process_transaction_message typeCache m txns).2 = txns ∨
    (process_transaction_message typeCache m txns).2 =
      txns.map (fun t =>
        if t.transaction_id = m.transaction_id then
          { t with transaction_status_id := 3,
                   updated_user_id := m.updated_user_id }
        else t) := by
  unfold process_transaction_message
  cases typeCache.lookup m.transaction_type_id with
  | none => exact Or.inl rfl
  | some tt =>
      by_cases hact : tt.position_keeping_actions = []
      · left
        simp [hact]
      · right
        simp [hact]

/-- Claim C5 (corrected): across every operation of the subsystem — poller
message handling, lambda message handling, and the orphan sweep — a
transaction whose status changes is only ever moved to `PROCESSED (3)`
(message handling) or from `QUEUED (2)` to `UNKNOWN (4)` (the sweep); in
particular no operation ever moves a transaction back to `QUEUED`/`NEW (2)`. -/
theorem C5_status_writes (typeCache : List (Nat × TransactionType))
    (pkUserId : Nat) (m : QueueMessage) (txns : List Transaction) (i : Nat)
    (t : Transaction) (h : txns[i]? = some t) :
    (∀ t2, (process_transaction typeCache pkUserId m txns)[i]? = some t2 →
        t2.transaction_status_id ≠ t.transaction_status_id →
        t2.transaction_status_id = 3) ∧
    (∀ t2, (process_transaction_message typeCache m txns).2[i]? = some t2 →
        t2.transaction_status_id ≠ t.transaction_status_id →
        t2.transaction_status_id = 3) ∧
    (∀ t2, (cleanup_orphaned_queued_transactions txns).1[i]? = some t2 →
        t2.transaction_status_id ≠ t.transaction_status_id →
        t.transaction_status_id = 2 ∧ t2.transaction_status_id = 4) := by
  refine ⟨?_, ?_, ?_⟩
  · intro t2 h2 hne
    rcases process_transaction_cases typeCache pkUserId m txns with hr | hr
    · rw [hr, h] at h2
      cases h2
      exact absurd rfl hne
    · rw [hr, getElem?_map_of_get txns i t h] at h2
      cases h2
      by_cases hid : t.transaction_id = m.transaction_id
      · rw [if_pos hid]
      · rw [if_neg hid] at hne ⊢
        exact absurd rfl hne
  · intro t2 h2 hne
    rcases process_transaction_message_snd typeCache m txns with hr | hr
    · rw [hr, h] at h2
      cases h2
      exact absurd rfl hne
    · rw [hr, getElem?_map_of_get txns i t h] at h2
      cases h2
      by_cases hid : t.transaction_id = m.transaction_id
      · rw [if_pos hid]
      · rw [if_neg hid] at hne ⊢
        exact absurd rfl hne
  · intro t2 h2 hne
    unfold cleanup_orphaned_queued_transactions at h2
    rw [getElem?_map_of_get txns i t h] at h2
    cases h2
    by_cases hq : t.transaction_status_id = 2
    · rw [if_pos hq]
      exact ⟨hq, rfl⟩
    · rw [if_neg hq] at hne ⊢
      exact absurd rfl hne

/-- Witness for C5: a NEW message processed by the poller yields status 3 on
the stored transaction. -/
theorem C5_status_writes_witness :
    (process_transaction typeCacheC4 99 msgC4 [txC4])[0]? =
      some { txC4 with transaction_status_id := 3, updated_user_id := 99 } ∧
    ({ txC4 with transaction_status_id := 3, updated_user_id := 99 } :
        Transaction).transaction_status_id = 3 :=
  ⟨by decide,
   (C5_status_writes typeCacheC4 99 msgC4 [txC4] 0 txC4 rfl).1
     { txC4 with transaction_status_id := 3, updated_user_id := 99 }
     (by decide) (by decide)⟩

/-- Claim C6 (confirmed): the orphan sweep sets every transaction whose
status is QUEUED (2) to UNKNOWN (4), changing nothing else of the row, and
leaves every transaction with any other status (in particular PROCESSED)
completely unchanged. -/
theorem C6_orphan_sweep (txns : List Transaction) (i : Nat) (t : Transaction)
    (h : txns[i]? = some t) :
    (t.transaction_status_id = 2 →
      (cleanup_orphaned_queued_transactions txns).1[i]? =
        some { t with transaction_status_id := 4 }) ∧
    (t.transaction_status_id ≠ 2 →
      (cleanup_orphaned_queued_transactions txns).1[i]? = some t) := by
  unfold cleanup_orphaned_queued_transactions
  constructor
  · intro h2
    simp only []
    rw [getElem?_map_of_get txns i t h, if_pos h2]
  · intro h2
    simp only []
    rw [getElem?_map_of_get txns i t h, if_neg h2]

/-- Witness for C6: a QUEUED transaction is set to UNKNOWN and a PROCESSED
one is untouched. -/
theorem C6_orphan_sweep_witness :
    (cleanup_orphaned_queued_transactions [txQueued, txProcessed]).1[0]? =
      some { txQueued with transaction_status_id := 4 } ∧
    (cleanup_orphaned_queued_transactions [txQueued, txProcessed]).1[1]? =
      some txProcessed :=
  ⟨(C6_orphan_sweep [txQueued, txProcessed] 0 txQueued rfl).1 rfl,
   (C6_orphan_sweep [txQueued, txProcessed] 1 txProcessed rfl).2 (by decide)⟩

/-- Claim C9 (confirmed): `refresh_record` on a cached table replaces the
entry for the refreshed key with the row fetched from the backing store
(delete-then-insert) when one exists, removes the key when none exists (so a
subsequent lookup returns not-found), and leaves the entries of every other
key unchanged. -/
theorem fetchRecord_key (dbTable : List CacheRecord) (k : Nat)
    (row : CacheRecord) (h : fetchRecord dbTable k = some row) : row.key = k := by
  unfold fetchRecord at h
  have hmem : row ∈ dbTable.filter (fun r => r.key = k) := by
    cases hf : dbTable.filter (fun r => r.key = k) with
    | nil => rw [hf] at h; cases h
    | cons b tl =>
        rw [hf] at h
        cases h
        exact List.mem_cons_self _ _
  have := List.of_mem_filter hmem
  simpa using this

/-- Claim C9 (confirmed): `refresh_record` on a cached table replaces the
entry for the refreshed key with the row fetched from the backing store
(delete-then-insert) when one exists, removes the key when none exists (so a
subsequent lookup returns not-found), and leaves the entries of every other
key unchanged. -/
theorem C9_refresh_record (cached : List CacheRecord)
    (dbTable : List CacheRecord) (k : Nat) :
    (fetchRecord dbTable k = none →
      cacheLookup (refresh_record cached dbTable k) k = []) ∧
    (∀ row, fetchRecord dbTable k = some row →
      cacheLookup (refresh_record cached dbTable k) k = [row]) ∧
    (∀ k2, k2 ≠ k →
      cacheLookup (refresh_record cached dbTable k) k2 =
        cacheLookup cached k2) := by
  refine ⟨?_, ?_, ?_⟩
  · intro hnone
    unfold refresh_record
    rw [hnone]
    unfold cacheLookup
    rw [List.filter_filter, List.filter_eq_nil_iff]
    intro r _
    simp
  · intro row hsome
    have hkey : row.key = k := fetchRecord_key dbTable k row hsome
    unfold refresh_record
    rw [hsome]
    unfold cacheLookup
    rw [List.filter_append, List.filter_filter]
    have h1 : cached.filter
        (fun r => decide (r.key = k) && decide (r.key ≠ k)) = [] := by
      rw [List.filter_eq_nil_iff]
      intro r _
      simp
    have h2 : [row].filter (fun r => r.key = k) = [row] := by
      simp [hkey]
    rw [h1, h2, List.nil_append]
  · intro k2 hk2
    unfold refresh_record cacheLookup
    cases hdb : fetchRecord dbTable k with
    | none =>
        rw [List.filter_filter]
        apply List.filter_congr
        intro r _
        by_cases hr : r.key = k2
        · have hrk : r.key ≠ k := by rw [hr]; exact hk2
          simp [hr, hrk, hk2]
        · simp [hr]
    | some row =>
        have hkey : row.key = k := fetchRecord_key dbTable k row hdb
        rw [List.filter_append, List.filter_filter]
        have h2 : [row].filter (fun r => r.key = k2) = [] := by
          have : row.key ≠ k2 := by rw [hkey]; exact fun hh => hk2 hh.symm
          simp [this]
        rw [h2, List.append_nil]
        apply List.filter_congr
        intro r _
        by_cases hr : r.key = k2
        · have hrk : r.key ≠ k := by rw [hr]; exact hk2
          simp [hr, hrk, hk2]
        · simp [hr]

/-- Witness for C9: refreshing key 42 replaces its cached payload, leaves key
7 unchanged, and refreshing the absent key 7 against a store without it
removes it from the cache. -/
theorem C9_refresh_record_witness :
    cacheLookup (refresh_record cachedC9 dbC9 42) 42 =
      [{ key := 42, payload := "new name" }] ∧
    cacheLookup (refresh_record cachedC9 dbC9 42) 7 = cacheLookup cachedC9 7 ∧
    cacheLookup (refresh_record cachedC9 dbC9 7) 7 = [] :=
  ⟨(C9_refresh_record cachedC9 dbC9 42).2.1
      { key := 42, payload := "new name" } (by decide),
   (C9_refresh_record cachedC9 dbC9 42).2.2 7 (by decide),
   (C9_refresh_record cachedC9 dbC9 7).1 (by decide)⟩

end Fullbor
